import Mathlib

/-!
Verification of the contact-backend request pipeline (src/server.js).

The repository is a small Express backend.  Its one piece of logic is
`contactHandler` (src/server.js, lines 68-132): honeypot check, required-field
check, email-syntax check, length-limit check, then rendering of a plain-text
and an HTML body and a single `transporter.sendMail` call.

Shallow embedding choices:
* A request-body field is `Option String`: `none` models an absent (or
  `undefined`) field, `some s` a string value.  JavaScript truthiness of such
  a field (`if (website)`, `if (!name || ...)`) is `truthy`: absent or empty
  strings are falsy, every non-empty string is truthy.
* `req.body || {}` on an absent / null / non-object body yields no usable
  fields, modelled by `emptyBody` (all fields `none`).
* `validator.isEmail` is an external library collaborator; the handler is
  parametrised over it as `isEmail : String → Bool`.
* `transporter.sendMail` is the external transport; its behaviour is the
  parameter `sendErr : Option String` (`none`: the dispatch call succeeds,
  `some err`: the call throws an error whose message is `err`).  The second
  component of the handler result lists the dispatch calls issued.
* `String.length` models JavaScript `.length`; both count units of the
  string (code points here, UTF-16 units there — identical on the inputs the
  claims are about).
-/

namespace ContactBackend

/-- A parsed JSON request body as destructured by
`const { name, email, subject, message, website } = req.body || {}`
(src/server.js line 70).  A field is `none` when absent. -/
structure ReqBody where
  name : Option String
  email : Option String
  subject : Option String
  message : Option String
  website : Option String
deriving Repr, DecidableEq

/-- JavaScript truthiness of a possibly-absent string field:
`undefined` and `""` are falsy, every other string is truthy. -/
def truthy : Option String → Bool
  | none => false
  | some s => !s.isEmpty

/-- The body obtained from an absent, null or non-object request body:
`req.body || {}` destructures to `undefined` for every field. -/
def emptyBody : ReqBody :=
  { name := none, email := none, subject := none, message := none, website := none }

/-- A request body carrying the four real fields and no honeypot value. -/
def mkBody (name email subject message : String) : ReqBody :=
  { name := some name, email := some email, subject := some subject,
    message := some message, website := none }

/-- An HTTP response as produced by `res.status(s).json({ok, error?})`;
`res.json` without `status` is status 200. -/
structure HttpResponse where
  status : Nat
  ok : Bool
  error : Option String
deriving Repr, DecidableEq

/-- The argument of one `transporter.sendMail` call (src/server.js 118-125).
`from` is a Lean keyword, hence `fromAddr`/`toAddr`. -/
structure Mail where
  fromAddr : String
  toAddr : String
  replyTo : String
  subject : String
  text : String
  html : String
deriving Repr, DecidableEq

/-- The resolved mail configuration: `from = FROM_EMAIL || SMTP_USER`,
`to = TO_EMAIL || SMTP_USER` (src/server.js 93-94), fixed per process. -/
structure Config where
  fromEmail : String
  toEmail : String
deriving Repr, DecidableEq

/-- One step of `validator.escape`: the library applies eight global
single-character replacements in sequence (`&`, `"`, `'`, `<`, `>`, `/`,
`\`, backtick); since no replacement string contains a character replaced
later in the sequence, the composition equals one left-to-right pass mapping
each character independently, which is what this function performs.
`Char.ofNat 39` is the apostrophe, `Char.ofNat 96` the backtick. -/
def escapeChar (c : Char) : List Char :=
  if c = '&' then "&amp;".data
  else if c = '"' then "&quot;".data
  else if c = Char.ofNat 39 then "&#x27;".data
  else if c = '<' then "&lt;".data
  else if c = '>' then "&gt;".data
  else if c = '/' then "&#x2F;".data
  else if c = '\\' then "&#x5C;".data
  else if c = Char.ofNat 96 then "&#96;".data
  else [c]

/-- `validator.escape`, HTML-escaping every special character of a string. -/
def escape (s : String) : String :=
  String.mk (s.data.flatMap escapeChar)

/-- JavaScript `String.prototype.trim`: strip whitespace from both ends
(the inputs at issue only use ASCII whitespace, where the JavaScript and
Lean whitespace classes agree). -/
def jsTrim (s : String) : String :=
  String.mk (((s.data.dropWhile Char.isWhitespace).reverse.dropWhile Char.isWhitespace).reverse)

/-- The labelled-field core of the plain-text body (src/server.js 96-103):
the template literal between its leading newline and trailing indentation. -/
def textCore (name email subject message : String) : String :=
  "Name: " ++ name ++ "\nEmail: " ++ email ++ "\nSubject: " ++ subject ++
    "\n\nMessage:\n" ++ message

/-- The plain-text body: the full template literal, then `.trim()`
(src/server.js 96-103). -/
def renderText (name email subject message : String) : String :=
  jsTrim ("\n" ++ textCore name email subject message ++ "\n    ")

/-- HTML template text before the interpolated name (src/server.js 105-108). -/
def htmlSeg0 : String :=
  "\n      <div style=\"font-family:Arial,Helvetica,sans-serif;line-height:1.6\">\n        <h2>Hii there!!!</h2>\n        <p><strong>Name:</strong> "

/-- HTML template text between name and email (src/server.js 108-109). -/
def htmlSeg1 : String :=
  "</p>\n        <p><strong>Email:</strong> "

/-- HTML template text between email and subject (src/server.js 109-110). -/
def htmlSeg2 : String :=
  "</p>\n        <p><strong>Subject:</strong> "

/-- HTML template text between subject and message (src/server.js 110-112). -/
def htmlSeg3 : String :=
  "</p>\n        <p><strong>Message:</strong></p>\n        <pre style=\"white-space:pre-wrap;background:#f7f7f9;padding:12px;border-radius:6px;border:1px solid #eee\">"

/-- HTML template text after the interpolated message (src/server.js 114-116). -/
def htmlSeg4 : String :=
  "</pre>\n      </div>\n    "

/-- The HTML body (src/server.js 105-116): the fixed template with each of
the four user values interpolated through `validator.escape`. -/
def renderHtml (name email subject message : String) : String :=
  htmlSeg0 ++ escape name ++ htmlSeg1 ++ escape email ++ htmlSeg2 ++
    escape subject ++ htmlSeg3 ++ escape message ++ htmlSeg4

/-- `contactHandler` (src/server.js 68-132).  Returns the HTTP response and
the list of mail-dispatch calls issued (a dispatch call appears in the list
whether or not the transport then fails). -/
def contactHandler (isEmail : String → Bool) (sendErr : Option String)
    (cfg : Config) (body : ReqBody) : HttpResponse × List Mail :=
  if truthy body.website then
    ({ status := 200, ok := true, error := none }, [])
  else if !truthy body.name || !truthy body.email || !truthy body.subject ||
      !truthy body.message then
    ({ status := 400, ok := false, error := some "All fields are required." }, [])
  else
    let name := body.name.getD ""
    let email := body.email.getD ""
    let subject := body.subject.getD ""
    let message := body.message.getD ""
    if !isEmail email then
      ({ status := 400, ok := false, error := some "Invalid email." }, [])
    else if 100 < name.length ∨ 200 < subject.length ∨ 5000 < message.length then
      ({ status := 400, ok := false, error := some "Input too long." }, [])
    else
      let mail : Mail :=
        { fromAddr := cfg.fromEmail, toAddr := cfg.toEmail, replyTo := email,
          subject := "Portfolio Contact: " ++ subject,
          text := renderText name email subject message,
          html := renderHtml name email subject message }
      match sendErr with
      | none => ({ status := 200, ok := true, error := none }, [mail])
      | some _ =>
          ({ status := 500, ok := false, error := some "Failed to send message." }, [mail])

/-- Claim C1: a submission whose `website` field is present and non-empty gets
a 200 `{ok: true}` response and causes zero mail-dispatch calls, whatever the
other fields contain and whatever the email validator or transport would do. -/
theorem honeypot_silent_success (isEmail : String → Bool) (sendErr : Option String)
    (cfg : Config) (body : ReqBody) (h : truthy body.website = true) :
    contactHandler isEmail sendErr cfg body =
      ({ status := 200, ok := true, error := none }, []) := by
  simp [contactHandler, h]

theorem honeypot_silent_success_witness :
    truthy (some "http://spam.example") = true ∧
    contactHandler (fun _ => false) (some "transport down")
        { fromEmail := "owner@example.com", toEmail := "owner@example.com" }
        { name := none, email := some "not-an-email", subject := none,
          message := some "x", website := some "http://spam.example" } =
      ({ status := 200, ok := true, error := none }, []) :=
  ⟨by decide,
   honeypot_silent_success (fun _ => false) (some "transport down")
     { fromEmail := "owner@example.com", toEmail := "owner@example.com" }
     { name := none, email := some "not-an-email", subject := none,
       message := some "x", website := some "http://spam.example" }
     (by decide)⟩

/-- Claim C4: with an empty (or absent) honeypot field, if any of `name`,
`email`, `subject`, `message` is missing or empty, the handler answers
400 with the "All fields are required." error and issues no dispatch call. -/
theorem missing_field_rejected (isEmail : String → Bool) (sendErr : Option String)
    (cfg : Config) (body : ReqBody) (hweb : truthy body.website = false)
    (h : truthy body.name = false ∨ truthy body.email = false ∨
      truthy body.subject = false ∨ truthy body.message = false) :
    contactHandler isEmail sendErr cfg body =
      ({ status := 400, ok := false, error := some "All fields are required." }, []) := by
  rcases h with h | h | h | h <;> simp [contactHandler, hweb, h]

theorem missing_field_rejected_witness :
    truthy (none : Option String) = false ∧
    (truthy (some "Ava") = false ∨ truthy (none : Option String) = false ∨
      truthy (some "Hi") = false ∨ truthy (some "Hello") = false) ∧
    contactHandler (fun _ => true) none
        { fromEmail := "o@e.com", toEmail := "o@e.com" }
        { name := some "Ava", email := none, subject := some "Hi",
          message := some "Hello", website := none } =
      ({ status := 400, ok := false, error := some "All fields are required." }, []) :=
  ⟨by decide, by decide,
   missing_field_rejected (fun _ => true) none
     { fromEmail := "o@e.com", toEmail := "o@e.com" }
     { name := some "Ava", email := none, subject := some "Hi",
       message := some "Hello", website := none }
     (by decide) (by decide)⟩

/-- Claim C9: an absent, null or non-object request body (modelled by
`emptyBody`, what `req.body || {}` destructures to in those cases) does not
crash the handler: it is treated as all fields missing, answered with the 400
"All fields are required." rejection and zero dispatch calls. -/
theorem malformed_body_rejected (isEmail : String → Bool) (sendErr : Option String)
    (cfg : Config) :
    contactHandler isEmail sendErr cfg emptyBody =
      ({ status := 400, ok := false, error := some "All fields are required." }, []) := by
  simp [contactHandler, emptyBody, truthy]

/-- A name of exactly 100 characters, the `name` length limit. -/
def name100 : String := String.mk (List.replicate 100 'a')

/-- A name of 101 characters, one past the `name` length limit. -/
def name101 : String := String.mk (List.replicate 101 'a')

/-- A subject of exactly 200 characters, the `subject` length limit. -/
def subj200 : String := String.mk (List.replicate 200 'b')

/-- A message of exactly 5000 characters, the `message` length limit. -/
def msg5000 : String := String.mk (List.replicate 5000 'c')

/-- A sample email validator standing in for `validator.isEmail` in concrete
instantiations: accepts exactly the strings containing an `@`. -/
def demoIsEmail (s : String) : Bool := s.data.contains '@'

theorem replicate_succ_ne_nil (n : Nat) (c : Char) : List.replicate (n + 1) c ≠ [] := by
  simp [List.replicate]

theorem truthy_some_mk (l : List Char) (h : l ≠ []) : truthy (some (String.mk l)) = true := by
  have h2 : String.mk l ≠ "" := fun he => h (congrArg String.data he)
  have h3 : (String.mk l).isEmpty = false := by
    cases hb : (String.mk l).isEmpty with
    | false => rfl
    | true => exact absurd ((String.isEmpty_iff (String.mk l)).mp hb) h2
  simp [truthy, h3]

theorem length_mk (l : List Char) : (String.mk l).length = l.length := rfl

theorem truthy_name100 : truthy (some name100) = true :=
  truthy_some_mk (List.replicate 100 'a') (replicate_succ_ne_nil 99 'a')

theorem truthy_name101 : truthy (some name101) = true :=
  truthy_some_mk (List.replicate 101 'a') (replicate_succ_ne_nil 100 'a')

theorem truthy_subj200 : truthy (some subj200) = true :=
  truthy_some_mk (List.replicate 200 'b') (replicate_succ_ne_nil 199 'b')

theorem truthy_msg5000 : truthy (some msg5000) = true :=
  truthy_some_mk (List.replicate 5000 'c') (replicate_succ_ne_nil 4999 'c')

theorem length_name100 : name100.length = 100 := by
  show (String.mk (List.replicate 100 'a')).length = 100
  rw [length_mk, List.length_replicate]

theorem length_name101 : name101.length = 101 := by
  show (String.mk (List.replicate 101 'a')).length = 101
  rw [length_mk, List.length_replicate]

theorem length_subj200 : subj200.length = 200 := by
  show (String.mk (List.replicate 200 'b')).length = 200
  rw [length_mk, List.length_replicate]

theorem length_msg5000 : msg5000.length = 5000 := by
  show (String.mk (List.replicate 5000 'c')).length = 5000
  rw [length_mk, List.length_replicate]

theorem name101_gt : 100 < name101.length := by
  rw [length_name101]
  decide

/-- Claim C5: validation short-circuits in the order honeypot, required
fields, email syntax, length limits: a submission with all fields present, an
email the validator rejects, and an oversized field is answered with the
"Invalid email." rejection, not the "Input too long." one, and no dispatch
call is issued. -/
theorem invalid_email_checked_before_length (isEmail : String → Bool)
    (sendErr : Option String) (cfg : Config) (body : ReqBody)
    (hweb : truthy body.website = false)
    (hname : truthy body.name = true) (hemail : truthy body.email = true)
    (hsubj : truthy body.subject = true) (hmsg : truthy body.message = true)
    (hbad : isEmail (body.email.getD "") = false)
    (hlong : 100 < (body.name.getD "").length ∨
      200 < (body.subject.getD "").length ∨
      5000 < (body.message.getD "").length) :
    contactHandler isEmail sendErr cfg body =
      ({ status := 400, ok := false, error := some "Invalid email." }, []) := by
  simp [contactHandler, hweb, hname, hemail, hsubj, hmsg, hbad]

theorem invalid_email_checked_before_length_witness :
    truthy (none : Option String) = false ∧
      truthy (some name101) = true ∧ truthy (some "not-an-email") = true ∧
      truthy (some "Hi") = true ∧ truthy (some "Hello") = true ∧
      demoIsEmail ((some "not-an-email").getD "") = false ∧
      100 < ((some name101).getD "" : String).length ∧
      contactHandler demoIsEmail none { fromEmail := "o@e.com", toEmail := "o@e.com" }
          (mkBody name101 "not-an-email" "Hi" "Hello") =
        ({ status := 400, ok := false, error := some "Invalid email." }, []) :=
  ⟨by decide, truthy_name101, by decide, by decide, by decide, by decide, name101_gt,
    invalid_email_checked_before_length demoIsEmail none
      { fromEmail := "o@e.com", toEmail := "o@e.com" }
      (mkBody name101 "not-an-email" "Hi" "Hello")
      (by decide) truthy_name101 (by decide) (by decide) (by decide) (by decide)
      (Or.inl name101_gt)⟩

/-- Claim C6: with honeypot empty, all fields present and a valid email, a
`name` longer than 100, a `subject` longer than 200 or a `message` longer
than 5000 characters is answered with the 400 "Input too long." rejection
and zero dispatch calls. -/
theorem oversized_input_rejected (isEmail : String → Bool)
    (sendErr : Option String) (cfg : Config) (body : ReqBody)
    (hweb : truthy body.website = false)
    (hname : truthy body.name = true) (hemail : truthy body.email = true)
    (hsubj : truthy body.subject = true) (hmsg : truthy body.message = true)
    (hok : isEmail (body.email.getD "") = true)
    (hlong : 100 < (body.name.getD "").length ∨
      200 < (body.subject.getD "").length ∨
      5000 < (body.message.getD "").length) :
    contactHandler isEmail sendErr cfg body =
      ({ status := 400, ok := false, error := some "Input too long." }, []) := by
  simp [contactHandler, hweb, hname, hemail, hsubj, hmsg, hok, hlong]

theorem oversized_input_rejected_witness :
    truthy (none : Option String) = false ∧
      truthy (some name101) = true ∧ truthy (some "ava@example.com") = true ∧
      truthy (some "Hi") = true ∧ truthy (some "Hello") = true ∧
      demoIsEmail ((some "ava@example.com").getD "") = true ∧
      100 < ((some name101).getD "" : String).length ∧
      contactHandler demoIsEmail none { fromEmail := "o@e.com", toEmail := "o@e.com" }
          (mkBody name101 "ava@example.com" "Hi" "Hello") =
        ({ status := 400, ok := false, error := some "Input too long." }, []) :=
  ⟨by decide, truthy_name101, by decide, by decide, by decide, by decide, name101_gt,
    oversized_input_rejected demoIsEmail none
      { fromEmail := "o@e.com", toEmail := "o@e.com" }
      (mkBody name101 "ava@example.com" "Hi" "Hello")
      (by decide) truthy_name101 (by decide) (by decide) (by decide) (by decide)
      (Or.inl name101_gt)⟩

/-- Claim C10: the length limits are strict: a submission at exactly the
boundaries (name of 100, subject of 200, message of 5000 characters), with
honeypot empty and a valid email, is accepted and dispatched (one mail-send
call) rather than rejected as too long. -/
theorem boundary_lengths_accepted (isEmail : String → Bool) (cfg : Config)
    (body : ReqBody)
    (hweb : truthy body.website = false)
    (hname : truthy body.name = true) (hemail : truthy body.email = true)
    (hsubj : truthy body.subject = true) (hmsg : truthy body.message = true)
    (hok : isEmail (body.email.getD "") = true)
    (hn : (body.name.getD "").length = 100)
    (hs : (body.subject.getD "").length = 200)
    (hm : (body.message.getD "").length = 5000) :
    (contactHandler isEmail none cfg body).1 =
      { status := 200, ok := true, error := none } ∧
    ((contactHandler isEmail none cfg body).2).length = 1 := by
  constructor <;> simp [contactHandler, hweb, hname, hemail, hsubj, hmsg, hok, hn, hs, hm]

theorem boundary_lengths_accepted_witness :
    truthy (none : Option String) = false ∧
      truthy (some name100) = true ∧ truthy (some "ava@example.com") = true ∧
      truthy (some subj200) = true ∧ truthy (some msg5000) = true ∧
      demoIsEmail ((some "ava@example.com").getD "") = true ∧
      ((some name100).getD "" : String).length = 100 ∧
      ((some subj200).getD "" : String).length = 200 ∧
      ((some msg5000).getD "" : String).length = 5000 ∧
      (contactHandler demoIsEmail none { fromEmail := "o@e.com", toEmail := "o@e.com" }
          (mkBody name100 "ava@example.com" subj200 msg5000)).1 =
        { status := 200, ok := true, error := none } ∧
      ((contactHandler demoIsEmail none { fromEmail := "o@e.com", toEmail := "o@e.com" }
          (mkBody name100 "ava@example.com" subj200 msg5000)).2).length = 1 :=
  ⟨by decide, truthy_name100, by decide, truthy_subj200, truthy_msg5000, by decide,
    length_name100, length_subj200, length_msg5000,
    (boundary_lengths_accepted demoIsEmail
      { fromEmail := "o@e.com", toEmail := "o@e.com" }
      (mkBody name100 "ava@example.com" subj200 msg5000)
      (by decide) truthy_name100 (by decide) truthy_subj200 truthy_msg5000 (by decide)
      length_name100 length_subj200 length_msg5000).1,
    (boundary_lengths_accepted demoIsEmail
      { fromEmail := "o@e.com", toEmail := "o@e.com" }
      (mkBody name100 "ava@example.com" subj200 msg5000)
      (by decide) truthy_name100 (by decide) truthy_subj200 truthy_msg5000 (by decide)
      length_name100 length_subj200 length_msg5000).2⟩

/-- Claim C7: when the mail-dispatch call fails, whatever the underlying
transport error is, the handler answers 500 with the fixed generic message
"Failed to send message."; the response is a constant function of the error,
so no detail of the transport error can appear in it. -/
theorem transport_error_response_fixed (isEmail : String → Bool) (cfg : Config)
    (body : ReqBody) (err : String)
    (hweb : truthy body.website = false)
    (hname : truthy body.name = true) (hemail : truthy body.email = true)
    (hsubj : truthy body.subject = true) (hmsg : truthy body.message = true)
    (hok : isEmail (body.email.getD "") = true)
    (h1 : (body.name.getD "").length ≤ 100)
    (h2 : (body.subject.getD "").length ≤ 200)
    (h3 : (body.message.getD "").length ≤ 5000) :
    (contactHandler isEmail (some err) cfg body).1 =
      { status := 500, ok := false, error := some "Failed to send message." } := by
  have hlen : ¬(100 < (body.name.getD "").length ∨
      200 < (body.subject.getD "").length ∨
      5000 < (body.message.getD "").length) := by
    push_neg
    exact ⟨h1, h2, h3⟩
  simp [contactHandler, hweb, hname, hemail, hsubj, hmsg, hok, hlen]

theorem transport_error_response_fixed_witness :
    truthy (none : Option String) = false ∧
      truthy (some "Ava") = true ∧ truthy (some "ava@example.com") = true ∧
      truthy (some "Hi") = true ∧ truthy (some "Hello there") = true ∧
      demoIsEmail ((some "ava@example.com").getD "") = true ∧
      ((some "Ava").getD "" : String).length ≤ 100 ∧
      ((some "Hi").getD "" : String).length ≤ 200 ∧
      ((some "Hello there").getD "" : String).length ≤ 5000 ∧
      (contactHandler demoIsEmail
          (some "ECONNREFUSED smtp.example.com:465 auth user owner pass hunter2")
          { fromEmail := "o@e.com", toEmail := "o@e.com" }
          (mkBody "Ava" "ava@example.com" "Hi" "Hello there")).1 =
        { status := 500, ok := false, error := some "Failed to send message." } :=
  ⟨by decide, by decide, by decide, by decide, by decide, by decide,
    by decide, by decide, by decide,
    transport_error_response_fixed demoIsEmail
      { fromEmail := "o@e.com", toEmail := "o@e.com" }
      (mkBody "Ava" "ava@example.com" "Hi" "Hello there")
      "ECONNREFUSED smtp.example.com:465 auth user owner pass hunter2"
      (by decide) (by decide) (by decide) (by decide) (by decide) (by decide)
      (by decide) (by decide) (by decide)⟩

/-- Claim C3: a submission that passes every validation rule causes exactly
one mail-dispatch call — whose reply-to is the submitter's email and whose
subject is the fixed label "Portfolio Contact: " followed by the user's
subject — and, when the transport accepts it, a 200 `{ok: true}` response. -/
theorem valid_submission_single_dispatch (isEmail : String → Bool)
    (sendErr : Option String) (cfg : Config) (body : ReqBody)
    (hweb : truthy body.website = false)
    (hname : truthy body.name = true) (hemail : truthy body.email = true)
    (hsubj : truthy body.subject = true) (hmsg : truthy body.message = true)
    (hok : isEmail (body.email.getD "") = true)
    (h1 : (body.name.getD "").length ≤ 100)
    (h2 : (body.subject.getD "").length ≤ 200)
    (h3 : (body.message.getD "").length ≤ 5000) :
    (contactHandler isEmail sendErr cfg body).2 =
      [{ fromAddr := cfg.fromEmail, toAddr := cfg.toEmail,
         replyTo := body.email.getD "",
         subject := "Portfolio Contact: " ++ body.subject.getD "",
         text := renderText (body.name.getD "") (body.email.getD "")
           (body.subject.getD "") (body.message.getD ""),
         html := renderHtml (body.name.getD "") (body.email.getD "")
           (body.subject.getD "") (body.message.getD "") }] ∧
    (contactHandler isEmail none cfg body).1 =
      { status := 200, ok := true, error := none } := by
  have hlen : ¬(100 < (body.name.getD "").length ∨
      200 < (body.subject.getD "").length ∨
      5000 < (body.message.getD "").length) := by
    push_neg
    exact ⟨h1, h2, h3⟩
  refine ⟨?_, ?_⟩
  · cases sendErr with
    | none => simp [contactHandler, hweb, hname, hemail, hsubj, hmsg, hok, hlen]
    | some e => simp [contactHandler, hweb, hname, hemail, hsubj, hmsg, hok, hlen]
  · simp [contactHandler, hweb, hname, hemail, hsubj, hmsg, hok, hlen]

theorem valid_submission_single_dispatch_witness :
    truthy (none : Option String) = false ∧
      truthy (some "Ava") = true ∧ truthy (some "ava@example.com") = true ∧
      truthy (some "Hi") = true ∧ truthy (some "Hello there") = true ∧
      demoIsEmail ((some "ava@example.com").getD "") = true ∧
      ((some "Ava").getD "" : String).length ≤ 100 ∧
      ((some "Hi").getD "" : String).length ≤ 200 ∧
      ((some "Hello there").getD "" : String).length ≤ 5000 ∧
      ((contactHandler demoIsEmail none
          { fromEmail := "owner@example.com", toEmail := "owner@example.com" }
          (mkBody "Ava" "ava@example.com" "Hi" "Hello there")).2 =
        [{ fromAddr := "owner@example.com", toAddr := "owner@example.com",
           replyTo := "ava@example.com",
           subject := "Portfolio Contact: " ++ "Hi",
           text := renderText "Ava" "ava@example.com" "Hi" "Hello there",
           html := renderHtml "Ava" "ava@example.com" "Hi" "Hello there" }] ∧
      (contactHandler demoIsEmail none
          { fromEmail := "owner@example.com", toEmail := "owner@example.com" }
          (mkBody "Ava" "ava@example.com" "Hi" "Hello there")).1 =
        { status := 200, ok := true, error := none }) :=
  ⟨by decide, by decide, by decide, by decide, by decide, by decide,
    by decide, by decide, by decide,
    valid_submission_single_dispatch demoIsEmail none
      { fromEmail := "owner@example.com", toEmail := "owner@example.com" }
      (mkBody "Ava" "ava@example.com" "Hi" "Hello there")
      (by decide) (by decide) (by decide) (by decide) (by decide) (by decide)
      (by decide) (by decide) (by decide)⟩

theorem handler_valid_snd (isEmail : String → Bool) (sendErr : Option String)
    (cfg : Config) (body : ReqBody)
    (hweb : truthy body.website = false)
    (hname : truthy body.name = true) (hemail : truthy body.email = true)
    (hsubj : truthy body.subject = true) (hmsg : truthy body.message = true)
    (hok : isEmail (body.email.getD "") = true)
    (h1 : (body.name.getD "").length ≤ 100)
    (h2 : (body.subject.getD "").length ≤ 200)
    (h3 : (body.message.getD "").length ≤ 5000) :
    (contactHandler isEmail sendErr cfg body).2 =
      [{ fromAddr := cfg.fromEmail, toAddr := cfg.toEmail,
         replyTo := body.email.getD "",
         subject := "Portfolio Contact: " ++ body.subject.getD "",
         text := renderText (body.name.getD "") (body.email.getD "")
           (body.subject.getD "") (body.message.getD ""),
         html := renderHtml (body.name.getD "") (body.email.getD "")
           (body.subject.getD "") (body.message.getD "") }] := by
  have hlen : ¬(100 < (body.name.getD "").length ∨
      200 < (body.subject.getD "").length ∨
      5000 < (body.message.getD "").length) := by
    push_neg
    exact ⟨h1, h2, h3⟩
  cases sendErr with
  | none => simp [contactHandler, hweb, hname, hemail, hsubj, hmsg, hok, hlen]
  | some e => simp [contactHandler, hweb, hname, hemail, hsubj, hmsg, hok, hlen]

theorem lt_not_mem_escapeChar (c : Char) : '<' ∉ escapeChar c := by
  unfold escapeChar
  split_ifs with h1 h2 h3 h4 h5 h6 h7 h8
  · decide
  · decide
  · decide
  · decide
  · decide
  · decide
  · decide
  · decide
  · simp only [List.mem_singleton]
    exact fun h => h4 h.symm

theorem gt_not_mem_escapeChar (c : Char) : '>' ∉ escapeChar c := by
  unfold escapeChar
  split_ifs with h1 h2 h3 h4 h5 h6 h7 h8
  · decide
  · decide
  · decide
  · decide
  · decide
  · decide
  · decide
  · decide
  · simp only [List.mem_singleton]
    exact fun h => h5 h.symm

theorem lt_not_mem_escape (s : String) : '<' ∉ (escape s).data := by
  show '<' ∉ s.data.flatMap escapeChar
  intro h
  rw [List.mem_flatMap] at h
  obtain ⟨a, -, ha⟩ := h
  exact lt_not_mem_escapeChar a ha

theorem gt_not_mem_escape (s : String) : '>' ∉ (escape s).data := by
  show '>' ∉ s.data.flatMap escapeChar
  intro h
  rw [List.mem_flatMap] at h
  obtain ⟨a, -, ha⟩ := h
  exact gt_not_mem_escapeChar a ha

theorem count_lt_escape (s : String) : (escape s).data.count '<' = 0 :=
  List.count_eq_zero.mpr (lt_not_mem_escape s)

theorem count_gt_escape (s : String) : (escape s).data.count '>' = 0 :=
  List.count_eq_zero.mpr (gt_not_mem_escape s)

theorem renderHtml_data (n e s m : String) :
    (renderHtml n e s m).data =
      htmlSeg0.data ++ ((escape n).data ++ (htmlSeg1.data ++ ((escape e).data ++
        (htmlSeg2.data ++ ((escape s).data ++ (htmlSeg3.data ++ ((escape m).data ++
        htmlSeg4.data))))))) := by
  simp [renderHtml, String.data_append]

/-- Claim C2: for a submission that passes validation, the dispatched mail's
HTML body is the fixed template with each of the four user values
interpolated through `escape`: each escaped value occurs as a contiguous
segment of the body, the counts of the markup characters `<` and `>` in the
body equal those of the bare template (`renderHtml "" "" "" ""`) whatever the
user supplied, and no character of an escaped value is `<` or `>` — so a
message such as "<script>x</script>" reaches the body only in escaped form
and its literal tags never appear. -/
theorem html_body_escapes_user_values (isEmail : String → Bool)
    (sendErr : Option String) (cfg : Config) (body : ReqBody)
    (hweb : truthy body.website = false)
    (hname : truthy body.name = true) (hemail : truthy body.email = true)
    (hsubj : truthy body.subject = true) (hmsg : truthy body.message = true)
    (hok : isEmail (body.email.getD "") = true)
    (h1 : (body.name.getD "").length ≤ 100)
    (h2 : (body.subject.getD "").length ≤ 200)
    (h3 : (body.message.getD "").length ≤ 5000) :
    ∃ mail : Mail, (contactHandler isEmail sendErr cfg body).2 = [mail] ∧
      mail.html = renderHtml (body.name.getD "") (body.email.getD "")
        (body.subject.getD "") (body.message.getD "") ∧
      (∃ u v, mail.html.data = u ++ (escape (body.name.getD "")).data ++ v) ∧
      (∃ u v, mail.html.data = u ++ (escape (body.email.getD "")).data ++ v) ∧
      (∃ u v, mail.html.data = u ++ (escape (body.subject.getD "")).data ++ v) ∧
      (∃ u v, mail.html.data = u ++ (escape (body.message.getD "")).data ++ v) ∧
      mail.html.data.count '<' = (renderHtml "" "" "" "").data.count '<' ∧
      mail.html.data.count '>' = (renderHtml "" "" "" "").data.count '>' ∧
      (∀ c ∈ (escape (body.message.getD "")).data, c ≠ '<' ∧ c ≠ '>') := by
  refine ⟨{ fromAddr := cfg.fromEmail, toAddr := cfg.toEmail,
            replyTo := body.email.getD "",
            subject := "Portfolio Contact: " ++ body.subject.getD "",
            text := renderText (body.name.getD "") (body.email.getD "")
              (body.subject.getD "") (body.message.getD ""),
            html := renderHtml (body.name.getD "") (body.email.getD "")
              (body.subject.getD "") (body.message.getD "") },
          handler_valid_snd isEmail sendErr cfg body hweb hname hemail hsubj hmsg hok h1 h2 h3,
          rfl, ?_, ?_, ?_, ?_, ?_, ?_, ?_⟩
  · exact ⟨htmlSeg0.data,
      htmlSeg1.data ++ ((escape (body.email.getD "")).data ++ (htmlSeg2.data ++
        ((escape (body.subject.getD "")).data ++ (htmlSeg3.data ++
        ((escape (body.message.getD "")).data ++ htmlSeg4.data))))),
      by rw [renderHtml_data]; simp [List.append_assoc]⟩
  · refine ⟨htmlSeg0.data ++ (escape (body.name.getD "")).data ++ htmlSeg1.data,
      htmlSeg2.data ++ ((escape (body.subject.getD "")).data ++ (htmlSeg3.data ++
        ((escape (body.message.getD "")).data ++ htmlSeg4.data))), ?_⟩
    rw [renderHtml_data]
    simp [List.append_assoc]
  · refine ⟨htmlSeg0.data ++ (escape (body.name.getD "")).data ++ htmlSeg1.data ++
        (escape (body.email.getD "")).data ++ htmlSeg2.data,
      htmlSeg3.data ++ ((escape (body.message.getD "")).data ++ htmlSeg4.data), ?_⟩
    rw [renderHtml_data]
    simp [List.append_assoc]
  · refine ⟨htmlSeg0.data ++ (escape (body.name.getD "")).data ++ htmlSeg1.data ++
        (escape (body.email.getD "")).data ++ htmlSeg2.data ++
        (escape (body.subject.getD "")).data ++ htmlSeg3.data,
      htmlSeg4.data, ?_⟩
    rw [renderHtml_data]
    simp [List.append_assoc]
  · rw [show (renderHtml (body.name.getD "") (body.email.getD "")
        (body.subject.getD "") (body.message.getD "")).data.count '<' =
        (renderHtml (body.name.getD "") (body.email.getD "")
          (body.subject.getD "") (body.message.getD "")).data.count '<' from rfl,
      renderHtml_data, renderHtml_data]
    simp [List.count_append, count_lt_escape]
  · rw [renderHtml_data, renderHtml_data]
    simp [List.count_append, count_gt_escape]
  · intro c hc
    exact ⟨fun h => lt_not_mem_escape (body.message.getD "") (h ▸ hc),
      fun h => gt_not_mem_escape (body.message.getD "") (h ▸ hc)⟩

theorem html_body_escapes_user_values_witness :
    truthy (none : Option String) = false ∧
      truthy (some "Ava") = true ∧ truthy (some "ava@example.com") = true ∧
      truthy (some "Hi") = true ∧ truthy (some "<script>x</script>") = true ∧
      demoIsEmail ((some "ava@example.com").getD "") = true ∧
      ((some "Ava").getD "" : String).length ≤ 100 ∧
      ((some "Hi").getD "" : String).length ≤ 200 ∧
      ((some "<script>x</script>").getD "" : String).length ≤ 5000 ∧
      (∃ mail : Mail,
        (contactHandler demoIsEmail none
            { fromEmail := "owner@example.com", toEmail := "owner@example.com" }
            (mkBody "Ava" "ava@example.com" "Hi" "<script>x</script>")).2 = [mail] ∧
        mail.html = renderHtml ((mkBody "Ava" "ava@example.com" "Hi" "<script>x</script>").name.getD "")
          ((mkBody "Ava" "ava@example.com" "Hi" "<script>x</script>").email.getD "")
          ((mkBody "Ava" "ava@example.com" "Hi" "<script>x</script>").subject.getD "")
          ((mkBody "Ava" "ava@example.com" "Hi" "<script>x</script>").message.getD "") ∧
        (∃ u v, mail.html.data = u ++
          (escape ((mkBody "Ava" "ava@example.com" "Hi" "<script>x</script>").name.getD "")).data ++ v) ∧
        (∃ u v, mail.html.data = u ++
          (escape ((mkBody "Ava" "ava@example.com" "Hi" "<script>x</script>").email.getD "")).data ++ v) ∧
        (∃ u v, mail.html.data = u ++
          (escape ((mkBody "Ava" "ava@example.com" "Hi" "<script>x</script>").subject.getD "")).data ++ v) ∧
        (∃ u v, mail.html.data = u ++
          (escape ((mkBody "Ava" "ava@example.com" "Hi" "<script>x</script>").message.getD "")).data ++ v) ∧
        mail.html.data.count '<' = (renderHtml "" "" "" "").data.count '<' ∧
        mail.html.data.count '>' = (renderHtml "" "" "" "").data.count '>' ∧
        (∀ c ∈ (escape ((mkBody "Ava" "ava@example.com" "Hi" "<script>x</script>").message.getD "")).data,
          c ≠ '<' ∧ c ≠ '>')) :=
  ⟨by decide, by decide, by decide, by decide, by decide, by decide,
    by decide, by decide, by decide,
    html_body_escapes_user_values demoIsEmail none
      { fromEmail := "owner@example.com", toEmail := "owner@example.com" }
      (mkBody "Ava" "ava@example.com" "Hi" "<script>x</script>")
      (by decide) (by decide) (by decide) (by decide) (by decide) (by decide)
      (by decide) (by decide) (by decide)⟩

theorem dropWhile_append_all (p : Char → Bool) (l1 l2 : List Char)
    (h : ∀ c ∈ l1, p c = true) : (l1 ++ l2).dropWhile p = l2.dropWhile p := by
  induction l1 with
  | nil => rfl
  | cons a t ih =>
      rw [List.cons_append, List.dropWhile_cons, if_pos (h a (List.mem_cons_self a t))]
      exact ih (fun c hc => h c (List.mem_cons_of_mem a hc))

theorem dropWhile_head_not (p : Char → Bool) (l : List Char)
    (h : ∀ c, l.head? = some c → p c = false) : l.dropWhile p = l := by
  cases l with
  | nil => rfl
  | cons a t => rw [List.dropWhile_cons, if_neg (by simp [h a rfl])]

theorem trim_sandwich (ws1 ws2 mid : List Char)
    (h1 : ∀ c ∈ ws1, c.isWhitespace = true)
    (h2 : ∀ c ∈ ws2, c.isWhitespace = true)
    (hhead : ∀ c, mid.head? = some c → c.isWhitespace = false)
    (hlast : ∀ c, mid.getLast? = some c → c.isWhitespace = false) :
    (((ws1 ++ (mid ++ ws2)).dropWhile Char.isWhitespace).reverse.dropWhile
      Char.isWhitespace).reverse = mid := by
  rw [dropWhile_append_all _ _ _ h1]
  cases mid with
  | nil =>
      have hw : ws2.dropWhile Char.isWhitespace = [] := by
        rw [← List.append_nil ws2, dropWhile_append_all _ _ _ h2]
        rfl
      simp [hw]
  | cons a t =>
      have ha : Char.isWhitespace a = false := hhead a rfl
      rw [List.cons_append, List.dropWhile_cons, if_neg (by simp [ha]), ← List.cons_append,
        List.reverse_append,
        dropWhile_append_all _ _ _ (fun c hc => h2 c (List.mem_reverse.mp hc)),
        dropWhile_head_not _ _ (fun c hc => hlast c (by rwa [List.head?_reverse] at hc)),
        List.reverse_reverse]

theorem renderText_eq_textCore (n e s m : String) (l : List Char) (c : Char)
    (hm : m.data = l ++ [c]) (hc : c.isWhitespace = false) :
    renderText n e s m = textCore n e s m := by
  apply String.ext
  show ((("\n" ++ (textCore n e s m ++ "\n    ")).data.dropWhile
      Char.isWhitespace).reverse.dropWhile Char.isWhitespace).reverse =
    (textCore n e s m).data
  have hdata : ("\n" ++ (textCore n e s m ++ "\n    ")).data =
      ['\n'] ++ ((textCore n e s m).data ++ ['\n', ' ', ' ', ' ', ' ']) := by
    rw [String.data_append, String.data_append]
  rw [hdata]
  apply trim_sandwich
  · intro x hx
    simp only [List.mem_singleton] at hx
    subst hx
    decide
  · intro x hx
    fin_cases hx <;> decide
  · intro x hx
    have hh : (textCore n e s m).data.head? = some 'N' := rfl
    rw [hh] at hx
    injection hx with hx
    subst hx
    decide
  · intro x hx
    have h5 : (textCore n e s m).data =
        ("Name: ".data ++ n.data ++ "\nEmail: ".data ++ e.data ++ "\nSubject: ".data ++
          s.data ++ "\n\nMessage:\n".data) ++ m.data := by
      simp [textCore, String.data_append]
    rw [h5, hm, ← List.append_assoc, List.getLast?_concat] at hx
    injection hx with hx
    subst hx
    exact hc

/-- Claim C8: for a submission that passes validation, the dispatched mail's
plain-text body is exactly the labelled fields Name, Email, Subject, Message
in that fixed order (`textCore`), with nothing before the first label and the
surrounding template whitespace trimmed away; stated for a message ending in
a non-whitespace character, since `.trim()` would also eat the user
message's own trailing whitespace. -/
theorem text_body_labeled_fields (isEmail : String → Bool)
    (sendErr : Option String) (cfg : Config) (body : ReqBody)
    (hweb : truthy body.website = false)
    (hname : truthy body.name = true) (hemail : truthy body.email = true)
    (hsubj : truthy body.subject = true) (hmsg : truthy body.message = true)
    (hok : isEmail (body.email.getD "") = true)
    (h1 : (body.name.getD "").length ≤ 100)
    (h2 : (body.subject.getD "").length ≤ 200)
    (h3 : (body.message.getD "").length ≤ 5000)
    (l : List Char) (c : Char)
    (hm : (body.message.getD "").data = l ++ [c]) (hc : c.isWhitespace = false) :
    ∃ mail : Mail, (contactHandler isEmail sendErr cfg body).2 = [mail] ∧
      mail.text = textCore (body.name.getD "") (body.email.getD "")
        (body.subject.getD "") (body.message.getD "") := by
  refine ⟨_, handler_valid_snd isEmail sendErr cfg body hweb hname hemail hsubj hmsg hok
    h1 h2 h3, ?_⟩
  exact renderText_eq_textCore (body.name.getD "") (body.email.getD "")
    (body.subject.getD "") (body.message.getD "") l c hm hc

theorem text_body_labeled_fields_witness :
    truthy (none : Option String) = false ∧
      truthy (some "Ava") = true ∧ truthy (some "ava@example.com") = true ∧
      truthy (some "Hi") = true ∧ truthy (some "Hello there") = true ∧
      demoIsEmail ((some "ava@example.com").getD "") = true ∧
      ((some "Ava").getD "" : String).length ≤ 100 ∧
      ((some "Hi").getD "" : String).length ≤ 200 ∧
      ((some "Hello there").getD "" : String).length ≤ 5000 ∧
      ((some "Hello there").getD "" : String).data = "Hello ther".data ++ ['e'] ∧
      Char.isWhitespace 'e' = false ∧
      (∃ mail : Mail,
        (contactHandler demoIsEmail none
            { fromEmail := "owner@example.com", toEmail := "owner@example.com" }
            (mkBody "Ava" "ava@example.com" "Hi" "Hello there")).2 = [mail] ∧
        mail.text = textCore ((mkBody "Ava" "ava@example.com" "Hi" "Hello there").name.getD "")
          ((mkBody "Ava" "ava@example.com" "Hi" "Hello there").email.getD "")
          ((mkBody "Ava" "ava@example.com" "Hi" "Hello there").subject.getD "")
          ((mkBody "Ava" "ava@example.com" "Hi" "Hello there").message.getD "")) :=
  ⟨by decide, by decide, by decide, by decide, by decide, by decide,
    by decide, by decide, by decide, by decide, by decide,
    text_body_labeled_fields demoIsEmail none
      { fromEmail := "owner@example.com", toEmail := "owner@example.com" }
      (mkBody "Ava" "ava@example.com" "Hi" "Hello there")
      (by decide) (by decide) (by decide) (by decide) (by decide) (by decide)
      (by decide) (by decide) (by decide) "Hello ther".data 'e' (by decide) (by decide)⟩

end ContactBackend
